import Mathlib

/-!
# Verification of the pg_service database convenience layer

Shallow embedding of `database/connector.py` and `database/sql_executer.py`
together with theorems settling the behavioural claims about them.

The driver (psycopg2) is modelled at its interface: a connection carries a
type string, a mutable autocommit flag, and a query function that, for a sql
text and bound arguments, yields the cursor state after `execute` (column
description, result rows, rowcount).
-/

namespace PgService

/-! ## Connection provider — `database/connector.py` -/

/-- The one error class `connector.py` defines: `MissingEnvironmentError`. -/
inductive ConnectorError where
  | missingEnvironmentError (msg : String)
deriving DecidableEq

/-- The state a `PostgresDbConnector` instance holds after `__init__`
(connector.py lines 20-39): the resolved environment, the alias string and
the auto-commit flag. -/
structure PostgresDbConnector where
  db_environment : String
  connection_alias : String
  auto_commit : Bool
deriving DecidableEq

/-- connector.py lines 36-38: the format string
`"service=\x7bdb_name\x7d:\x7benvironment\x7d user=\x7buser_name\x7d"`
applied to its three arguments. -/
def mkAlias (db_name user_name environment : String) : String :=
  "service=" ++ db_name ++ ":" ++ environment ++ " user=" ++ user_name

/-- `PostgresDbConnector.__init__` (connector.py lines 20-39).
`env_var_ENV` models the process environment lookup of `ENV`:
`some v` when the ENV variable is set to `v`, `none` when absent (in which
case the lookup raises `KeyError` and the constructor re-raises
`MissingEnvironmentError`). -/
def PostgresDbConnector.init (db_name user_name : String) (env : Option String)
    (auto_commit : Bool) (env_var_ENV : Option String) :
    Except ConnectorError PostgresDbConnector :=
  match env with
  | none =>
    match env_var_ENV with
    | none =>
      Except.error (ConnectorError.missingEnvironmentError "No ENV environment variable found")
    | some v =>
      Except.ok
        { db_environment := v
          connection_alias := mkAlias db_name user_name v
          auto_commit := auto_commit }
  | some e =>
    Except.ok
      { db_environment := e
        connection_alias := mkAlias db_name user_name e
        auto_commit := auto_commit }

/-- A live psycopg2 connection handle as `connect` observes it: the dsn it
was opened with and its mutable autocommit flag. -/
structure PgConnection where
  dsn : String
  autocommit : Bool
deriving DecidableEq

/-- `PostgresDbConnector.connect` (connector.py lines 41-50): open the
connection on the alias (the driver picks some default autocommit value,
modelled by `driver_default_autocommit`), then assign
`db_connection.autocommit = self.auto_commit`. -/
def PostgresDbConnector.connect (self : PostgresDbConnector)
    (driver_default_autocommit : Bool) : PgConnection :=
  let db_connection : PgConnection :=
    { dsn := self.connection_alias, autocommit := driver_default_autocommit }
  { db_connection with autocommit := self.auto_commit }

/-! ## Query executor — `database/sql_executer.py` -/

/-- sql_executer.py line 25. -/
def DJANGO_DATABASE_WRAPPER : String :=
  "django.db.backends.postgresql_psycopg2.base.DatabaseWrapper"

/-- sql_executer.py line 26. -/
def DJANGO_DEFAULT_CONNECTION_PROXY : String :=
  "django.db.DefaultConnectionProxy"

/-- Whether `needle` occurs as a contiguous run inside `haystack`. -/
def containsRun [BEq α] (needle : List α) : List α → Bool
  | [] => needle.isEmpty
  | c :: rest => needle.isPrefixOf (c :: rest) || containsRun needle rest

/-- Python's substring test `needle in haystack`. -/
def strContains (haystack needle : String) : Bool :=
  containsRun needle.toList haystack.toList

/-- Execution type constant (sql_executer.py line 20); a plain string in the
source. -/
def FETCH_ONE : String := "fetchone"

/-- Execution type constant (sql_executer.py line 21). -/
def FETCH_ALL : String := "fetchall"

/-- Execution type constant (sql_executer.py line 22). -/
def MODIFY : String := "modify"

/-- One entry of `cursor.description`: column metadata; only the `.name`
field is consulted by this library. -/
structure ColDesc where
  name : String
deriving DecidableEq

/-- The cursor state after `cursor.execute(sql, args)`: the driver-reported
column description, the result rows (positional tuples of column values over
an abstract value type `α`), and the driver-reported `rowcount` (an integer;
-1 when unknown). `fetchone` returns the first row or `None`; `fetchall`
returns all rows. -/
structure Cursor (α : Type) where
  description : List ColDesc
  rows : List (List α)
  rowcount : Int
deriving DecidableEq

/-- A psycopg2-like connection as `SqlExecuter` observes it: the
`str(type(...))` string, the autocommit flag, and the driver behaviour: for
each (sql, args) pair the cursor state that `execute` produces. -/
structure DbConnection (α : Type) where
  connection_type : String
  autocommit : Bool
  run : String → List (String × α) → Cursor α

/-- `SqlExecuter` instance state: the borrowed connection and the
`is_django_connection` flag computed once in `__init__`. -/
structure SqlExecuter (α : Type) where
  db_connection : DbConnection α
  is_django_connection : Bool

/-- `SqlExecuter.__init__` (sql_executer.py lines 46-52): store the
connection and detect django-flavored connections by substring tests on
`str(type(self.db_connection))`. -/
def SqlExecuter.init (db_connection : DbConnection α) : SqlExecuter α :=
  { db_connection := db_connection
    is_django_connection :=
      strContains db_connection.connection_type DJANGO_DATABASE_WRAPPER ||
      strContains db_connection.connection_type DJANGO_DEFAULT_CONNECTION_PROXY }

/-- A Python result row: either the driver's plain positional tuple, or the
named-field record (`namedtuple`) produced by the legacy conversion. -/
inductive PyRow (α : Type) where
  | positional (vals : List α)
  | named (fields : List (String × α))
deriving DecidableEq

/-- The dynamic shape of `query_data` inside `_execute`: `None`, a single
row (`fetchone`), or a list of rows (`fetchall`). -/
inductive QueryData (α : Type) where
  | none
  | one (row : PyRow α)
  | many (rows : List (PyRow α))
deriving DecidableEq

/-- The `query_data is None` test. -/
def QueryData.is_none : QueryData α → Bool
  | QueryData.none => true
  | _ => false

/-- `namedtuple_result(*row)`: build the named record for one row. Unpacking
`*row` yields a tuple's positional values (for a namedtuple row, its values);
the record's fields pair the description-derived names, in order, with them. -/
def namedtupleFromRow (field_names : List String) : PyRow α → PyRow α
  | PyRow.positional vals => PyRow.named (field_names.zip vals)
  | PyRow.named fields => PyRow.named (field_names.zip (fields.map Prod.snd))

/-- `SqlExecuter.convert_result_to_namedtuple` (sql_executer.py lines
107-117): field names are `[col.name for col in cursor_description]`; `None`
stays `None`, a list maps the constructor over its rows, anything else is
converted as a single row. -/
def SqlExecuter.convert_result_to_namedtuple (cursor_description : List ColDesc) :
    QueryData α → QueryData α
  | QueryData.none => QueryData.none
  | QueryData.many rows =>
    QueryData.many (rows.map (namedtupleFromRow (cursor_description.map ColDesc.name)))
  | QueryData.one row =>
    QueryData.one (namedtupleFromRow (cursor_description.map ColDesc.name) row)

/-- The result envelope `ExecutionResults` (sql_executer.py line 31). -/
structure ExecutionResults (α : Type) where
  query_data : QueryData α
  cursor_description : Option (List ColDesc)
  row_count : Int
deriving DecidableEq

/-- The body of `SqlExecuter._execute` (sql_executer.py lines 77-105) once
the cursor has executed the statement: pick `fetchone` / `fetchall` / no
fetch by the execution-type string, apply the django namedtuple conversion
when the flag is set and `query_data is not None`, and assemble
`ExecutionResults` with `row_count = cursor.rowcount` and
`cursor_description = cursor.description if execution_type == MODIFY else None`. -/
def SqlExecuter.execute_cursor (is_django_connection : Bool) (cursor : Cursor α)
    (execution_type : String) : ExecutionResults α :=
  let query_data : QueryData α :=
    if execution_type = FETCH_ONE then
      match cursor.rows.head? with
      | some r => QueryData.one (PyRow.positional r)
      | none => QueryData.none
    else if execution_type = FETCH_ALL then
      QueryData.many (cursor.rows.map PyRow.positional)
    else
      QueryData.none
  let query_data :=
    if is_django_connection && !query_data.is_none then
      SqlExecuter.convert_result_to_namedtuple cursor.description query_data
    else query_data
  { query_data := query_data
    row_count := cursor.rowcount
    cursor_description :=
      if execution_type = MODIFY then some cursor.description else none }

/-- `SqlExecuter._execute` (sql_executer.py lines 77-105): open a cursor,
execute the statement, and normalize the result. -/
def SqlExecuter._execute (self : SqlExecuter α) (sql : String)
    (args : List (String × α)) (execution_type : String) : ExecutionResults α :=
  SqlExecuter.execute_cursor self.is_django_connection
    (self.db_connection.run sql args) execution_type

/-- `SqlExecuter.fetch_one_row` (sql_executer.py lines 119-123). -/
def SqlExecuter.fetch_one_row (self : SqlExecuter α) (sql : String)
    (args : List (String × α)) : ExecutionResults α :=
  SqlExecuter._execute self sql args FETCH_ONE

/-- `SqlExecuter.fetch_all_rows` (sql_executer.py lines 125-129). -/
def SqlExecuter.fetch_all_rows (self : SqlExecuter α) (sql : String)
    (args : List (String × α)) : ExecutionResults α :=
  SqlExecuter._execute self sql args FETCH_ALL

/-- `SqlExecuter.modify_rows` (sql_executer.py lines 131-135). -/
def SqlExecuter.modify_rows (self : SqlExecuter α) (sql : String)
    (args : List (String × α)) : ExecutionResults α :=
  SqlExecuter._execute self sql args MODIFY

/-! ## Server-side streaming — `SqlExecuter.fetch_all_server_side`
(sql_executer.py lines 137-160) -/

/-- sql_executer.py line 150: `cursor.arraysize = 4000`; with no argument,
`cursor.fetchmany()` fetches `arraysize` rows. -/
def ARRAYSIZE : Nat := 4000

/-- The fetch loop of `fetch_all_server_side` (sql_executer.py lines
152-157): `result_set = cursor.fetchmany()` takes the next batch of up to
`ARRAYSIZE` rows from the server-side result set (`pending`); an empty batch
breaks the loop, otherwise every row of the batch is yielded and the loop
repeats on the remaining rows. The returned list is the full sequence of
yielded rows. -/
def fetchmany_loop (pending : List α) : List α :=
  if h : (pending.take ARRAYSIZE).isEmpty then []
  else pending.take ARRAYSIZE ++ fetchmany_loop (pending.drop ARRAYSIZE)
termination_by pending.length
decreasing_by
  simp only [List.isEmpty_iff, List.take_eq_nil_iff, ARRAYSIZE] at h
  push_neg at h
  have hne : pending ≠ [] := h.2
  have hpos : 0 < pending.length := List.length_pos.mpr hne
  simpa [List.length_drop] using Nat.sub_lt hpos (by decide)

/-- How the caller drives the `fetch_all_server_side` generator: either it
iterates to exhaustion (`next` until `StopIteration`), or it consumes `k`
rows and then closes the generator while it is suspended at a `yield`
(meaningful for `1 ≤ k ≤` number of rows). -/
inductive Consumption where
  | exhaust
  | closeAfter (k : Nat)
deriving DecidableEq

/-- The observable outcome of one run of the generator: the rows yielded to
the caller, whether the named cursor was closed and the transaction scope
released on the way out, the connection's autocommit value while the
generator body was streaming, and its value once the generator has
terminated. -/
structure StreamRun (α : Type) where
  yielded : List α
  cursor_closed : Bool
  transaction_released : Bool
  autocommit_during : Bool
  autocommit_final : Bool
deriving DecidableEq

/-- `SqlExecuter.fetch_all_server_side` (sql_executer.py lines 137-160) run
against a server-side result set `rows` (the rows the driver returns, in
order, for the given statement) with the connection's autocommit initially
`autocommit0`.

The generator body records `auto_commit_was_on = self.db_connection.autocommit`
(line 145), sets `self.db_connection.autocommit = False` (line 146), enters
`with self.db_connection` and `with cxn.cursor(name=cursor_name)`, executes,
and loops over `fetchmany` batches yielding rows; after the `with` blocks it
restores `self.db_connection.autocommit = True` only when
`auto_commit_was_on` (lines 159-160).

* `Consumption.exhaust`: the caller advances the generator until a fetched
  batch is empty; the loop breaks, both `with` blocks exit normally (cursor
  closed, transaction committed/released), and the trailing restore runs.
* `Consumption.closeAfter k`: the caller closes the generator while it is
  suspended at the `yield` of the k-th row. Closing raises `GeneratorExit`
  at that yield; the exception unwinds both `with` blocks — so the named
  cursor is closed and the connection scope exits, releasing the transaction
  — but `GeneratorExit` then keeps propagating out of the generator body, so
  the trailing `if auto_commit_was_on: self.db_connection.autocommit = True`
  (lines 159-160) never executes and the connection is left with autocommit
  `False` (the value set at line 146). -/
def fetch_all_server_side (autocommit0 : Bool) (rows : List α) :
    Consumption → StreamRun α
  | Consumption.exhaust =>
    { yielded := fetchmany_loop rows
      cursor_closed := true
      transaction_released := true
      autocommit_during := false
      autocommit_final := if autocommit0 then true else false }
  | Consumption.closeAfter k =>
    { yielded := rows.take k
      cursor_closed := true
      transaction_released := true
      autocommit_during := false
      autocommit_final := false }

/-! ## Concrete fixtures used by the witness theorems -/

/-- A cursor over an empty result set. -/
def emptyCursor : Cursor Nat :=
  { description := [], rows := [], rowcount := 0 }

/-- A plain (non-django) psycopg2 connection whose every query returns the
empty result set. -/
def plainConnection : DbConnection Nat :=
  { connection_type := "<class 'psycopg2.extensions.connection'>"
    autocommit := true
    run := fun _ _ => emptyCursor }

/-- Executor over `plainConnection`. -/
def plainExecuter : SqlExecuter Nat := SqlExecuter.init plainConnection

/-- A 2-row, 3-column cursor. -/
def djangoCursor : Cursor Nat :=
  { description := [{ name := "a" }, { name := "b" }, { name := "c" }]
    rows := [[1, 2, 3], [4, 5, 6]]
    rowcount := 2 }

/-- A django-flavored connection (its type string contains
`DJANGO_DATABASE_WRAPPER`) whose every query returns `djangoCursor`. -/
def djangoConnection : DbConnection Nat :=
  { connection_type := "<class 'django.db.backends.postgresql_psycopg2.base.DatabaseWrapper'>"
    autocommit := true
    run := fun _ _ => djangoCursor }

end PgService

namespace PgService

/-! ## Theorems -/

/-- The fetch loop forwards the server-side result set unchanged: batching by
`ARRAYSIZE` and stopping at the first empty batch yields every row once, in
order. -/
theorem fetchmany_loop_eq (l : List α) : fetchmany_loop l = l := by
  induction l using fetchmany_loop.induct with
  | case1 l h =>
    rw [fetchmany_loop, dif_pos h]
    simp only [List.isEmpty_iff, List.take_eq_nil_iff, ARRAYSIZE] at h
    rcases h with h | h
    · exact absurd h (by decide)
    · exact h.symm
  | case2 l h ih =>
    rw [fetchmany_loop, dif_neg h, ih, List.take_append_drop]

/-- C1: a run of `fetch_all_server_side` that the caller drives to exhaustion
yields exactly the rows of the server-side result set, in the driver's
original order (fetching internally in `ARRAYSIZE = 4000` batches and
stopping at the first empty batch, per `fetchmany_loop`). -/
theorem fetch_all_server_side_yields_all (autocommit0 : Bool) (rows : List α) :
    (fetch_all_server_side autocommit0 rows Consumption.exhaust).yielded = rows :=
  fetchmany_loop_eq rows

/-- C2 counterexample: close the generator after consuming 1 of 2 rows with
autocommit previously on; the autocommit flag is NOT restored to its
pre-call value — it is left off. -/
theorem streaming_abandon_restore_cex :
    ¬ ((fetch_all_server_side true ([10, 20] : List Nat)
        (Consumption.closeAfter 1)).autocommit_final = true) := by
  decide

/-- C2 (amended): abandoning the stream early (closing the generator after
consuming at least one row, before exhaustion) still triggers scope cleanup —
the named cursor is closed and the transaction scope is released, and the
rows already consumed are exactly the first `k` — but the autocommit flag is
NOT restored: it is left off regardless of its pre-call value, because the
restore code sits after the `with` blocks and the propagating `GeneratorExit`
skips it. -/
theorem streaming_abandon_cleanup (autocommit0 : Bool) (rows : List α) (k : Nat)
    (hk1 : 1 ≤ k) (hk2 : k ≤ rows.length) :
    (fetch_all_server_side autocommit0 rows (Consumption.closeAfter k)).cursor_closed = true ∧
    (fetch_all_server_side autocommit0 rows (Consumption.closeAfter k)).transaction_released = true ∧
    (fetch_all_server_side autocommit0 rows (Consumption.closeAfter k)).yielded = rows.take k ∧
    (fetch_all_server_side autocommit0 rows (Consumption.closeAfter k)).autocommit_final = false :=
  ⟨rfl, rfl, rfl, rfl⟩

/-- Witness for the amended C2 at concrete inputs. -/
theorem streaming_abandon_cleanup_witness :
    (1 ≤ 1 ∧ 1 ≤ ([10, 20] : List Nat).length) ∧
    ((fetch_all_server_side true ([10, 20] : List Nat) (Consumption.closeAfter 1)).cursor_closed = true ∧
     (fetch_all_server_side true ([10, 20] : List Nat) (Consumption.closeAfter 1)).transaction_released = true ∧
     (fetch_all_server_side true ([10, 20] : List Nat) (Consumption.closeAfter 1)).yielded = ([10, 20] : List Nat).take 1 ∧
     (fetch_all_server_side true ([10, 20] : List Nat) (Consumption.closeAfter 1)).autocommit_final = false) :=
  ⟨⟨by decide, by decide⟩, streaming_abandon_cleanup true [10, 20] 1 (by decide) (by decide)⟩

/-- C3: on a run to normal exhaustion the autocommit flag ends up equal to
its pre-call value (restored when previously on, left off when previously
off), and during the streaming it is forced off. -/
theorem streaming_autocommit_restore (autocommit0 : Bool) (rows : List α) :
    (fetch_all_server_side autocommit0 rows Consumption.exhaust).autocommit_final = autocommit0 ∧
    (fetch_all_server_side autocommit0 rows Consumption.exhaust).autocommit_during = false := by
  cases autocommit0 <;> exact ⟨rfl, rfl⟩

/-- C4: `modify_rows` returns an envelope with `query_data = None`,
`cursor_description` taken from the cursor's post-execute description,
`row_count` the driver-reported affected-row count; and no fetch is
performed — the result does not depend on the rows the cursor could fetch. -/
theorem modify_rows_envelope (self : SqlExecuter α) (sql : String)
    (args : List (String × α)) :
    (self.modify_rows sql args).query_data = QueryData.none ∧
    (self.modify_rows sql args).cursor_description =
      some (self.db_connection.run sql args).description ∧
    (self.modify_rows sql args).row_count = (self.db_connection.run sql args).rowcount ∧
    ∀ fetched : List (List α),
      SqlExecuter.execute_cursor self.is_django_connection
        { self.db_connection.run sql args with rows := fetched } MODIFY =
      SqlExecuter.execute_cursor self.is_django_connection
        (self.db_connection.run sql args) MODIFY := by
  refine ⟨?_, ?_, ?_, ?_⟩ <;>
    simp [SqlExecuter.modify_rows, SqlExecuter._execute, SqlExecuter.execute_cursor,
      FETCH_ONE, FETCH_ALL, MODIFY, QueryData.is_none]

/-- C5: on a query returning zero rows, `fetch_one_row` gives
`query_data = None` (absence, not an error value) while `fetch_all_rows`
gives `query_data = []` (an empty sequence, not absence); both leave
`cursor_description` absent. -/
theorem zero_rows_results (self : SqlExecuter α) (sql : String)
    (args : List (String × α))
    (h : (self.db_connection.run sql args).rows = []) :
    (self.fetch_one_row sql args).query_data = QueryData.none ∧
    (self.fetch_all_rows sql args).query_data = QueryData.many [] ∧
    (self.fetch_one_row sql args).cursor_description = none ∧
    (self.fetch_all_rows sql args).cursor_description = none := by
  cases hd : self.is_django_connection <;>
    simp [SqlExecuter.fetch_one_row, SqlExecuter.fetch_all_rows, SqlExecuter._execute,
      SqlExecuter.execute_cursor, h, hd, FETCH_ONE, FETCH_ALL, MODIFY, QueryData.is_none,
      SqlExecuter.convert_result_to_namedtuple]

/-- Witness for C5 at a concrete executor whose query returns zero rows. -/
theorem zero_rows_results_witness :
    (plainExecuter.db_connection.run "select 1" []).rows = [] ∧
    ((plainExecuter.fetch_one_row "select 1" []).query_data = QueryData.none ∧
     (plainExecuter.fetch_all_rows "select 1" []).query_data = QueryData.many [] ∧
     (plainExecuter.fetch_one_row "select 1" []).cursor_description = none ∧
     (plainExecuter.fetch_all_rows "select 1" []).cursor_description = none) :=
  ⟨rfl, zero_rows_results plainExecuter "select 1" [] rfl⟩

/-- C6: the legacy-row-shaping flag is computed once at construction from the
connection's type string; when it is set, every row of a `fetch_all_rows`
result is a named record pairing the `cursor.description` column names, in
order, with the row's positional values (so all rows share the one shape
given by the description); when it is not set, rows stay positional. -/
theorem legacy_row_shaping (db_connection : DbConnection α) (sql : String)
    (args : List (String × α))
    (h_wf : ∀ r ∈ (db_connection.run sql args).rows,
      r.length = (db_connection.run sql args).description.length) :
    (SqlExecuter.init db_connection).is_django_connection =
      (strContains db_connection.connection_type DJANGO_DATABASE_WRAPPER ||
       strContains db_connection.connection_type DJANGO_DEFAULT_CONNECTION_PROXY) ∧
    ((SqlExecuter.init db_connection).is_django_connection = true →
      ((SqlExecuter.init db_connection).fetch_all_rows sql args).query_data =
        QueryData.many ((db_connection.run sql args).rows.map (fun r =>
          PyRow.named (((db_connection.run sql args).description.map ColDesc.name).zip r))) ∧
      ∀ r ∈ (db_connection.run sql args).rows,
        (((db_connection.run sql args).description.map ColDesc.name).zip r).map Prod.fst =
          (db_connection.run sql args).description.map ColDesc.name ∧
        (((db_connection.run sql args).description.map ColDesc.name).zip r).map Prod.snd = r) ∧
    ((SqlExecuter.init db_connection).is_django_connection = false →
      ((SqlExecuter.init db_connection).fetch_all_rows sql args).query_data =
        QueryData.many ((db_connection.run sql args).rows.map PyRow.positional)) := by
  refine ⟨rfl, fun hd => ⟨?_, fun r hr => ⟨?_, ?_⟩⟩, fun hd => ?_⟩
  · simp [SqlExecuter.fetch_all_rows, SqlExecuter._execute, SqlExecuter.execute_cursor,
      FETCH_ONE, FETCH_ALL, MODIFY, QueryData.is_none, SqlExecuter.init] at hd ⊢
    simp [hd, SqlExecuter.convert_result_to_namedtuple, namedtupleFromRow, List.map_map,
      Function.comp_def]
  · exact List.map_fst_zip _ _ (by simp [h_wf r hr])
  · exact List.map_snd_zip _ _ (by simp [h_wf r hr])
  · simp [SqlExecuter.fetch_all_rows, SqlExecuter._execute, SqlExecuter.execute_cursor,
      FETCH_ONE, FETCH_ALL, MODIFY, QueryData.is_none, SqlExecuter.init] at hd ⊢
    simp [hd]

/-- Witness for C6 at a 2-row, 3-column django-flavored executor. -/
theorem legacy_row_shaping_witness :
    (∀ r ∈ (djangoConnection.run "select a, b, c from t" []).rows,
      r.length = (djangoConnection.run "select a, b, c from t" []).description.length) ∧
    ((SqlExecuter.init djangoConnection).is_django_connection =
      (strContains djangoConnection.connection_type DJANGO_DATABASE_WRAPPER ||
       strContains djangoConnection.connection_type DJANGO_DEFAULT_CONNECTION_PROXY) ∧
     ((SqlExecuter.init djangoConnection).is_django_connection = true →
       ((SqlExecuter.init djangoConnection).fetch_all_rows "select a, b, c from t" []).query_data =
         QueryData.many ((djangoConnection.run "select a, b, c from t" []).rows.map (fun r =>
           PyRow.named (((djangoConnection.run "select a, b, c from t" []).description.map ColDesc.name).zip r))) ∧
       ∀ r ∈ (djangoConnection.run "select a, b, c from t" []).rows,
         (((djangoConnection.run "select a, b, c from t" []).description.map ColDesc.name).zip r).map Prod.fst =
           (djangoConnection.run "select a, b, c from t" []).description.map ColDesc.name ∧
         (((djangoConnection.run "select a, b, c from t" []).description.map ColDesc.name).zip r).map Prod.snd = r) ∧
     ((SqlExecuter.init djangoConnection).is_django_connection = false →
       ((SqlExecuter.init djangoConnection).fetch_all_rows "select a, b, c from t" []).query_data =
         QueryData.many ((djangoConnection.run "select a, b, c from t" []).rows.map PyRow.positional))) :=
  ⟨by decide, legacy_row_shaping djangoConnection "select a, b, c from t" [] (by decide)⟩

/-- C7: for every successfully constructed provider, the connection alias is
exactly `service=<db>:<env> user=<user>` with the resolved environment
substituted for `<env>`. -/
theorem connection_alias_format (db_name user_name : String) (env env_var_ENV : Option String)
    (auto_commit : Bool) (c : PostgresDbConnector)
    (h : PostgresDbConnector.init db_name user_name env auto_commit env_var_ENV = Except.ok c) :
    c.connection_alias = "service=" ++ db_name ++ ":" ++ c.db_environment ++ " user=" ++ user_name := by
  cases env with
  | some e =>
    simp only [PostgresDbConnector.init, Except.ok.injEq] at h
    subst h
    rfl
  | none =>
    cases env_var_ENV with
    | none => simp [PostgresDbConnector.init] at h
    | some v =>
      simp only [PostgresDbConnector.init, Except.ok.injEq] at h
      subst h
      rfl

/-- Witness for C7 at concrete inputs. -/
theorem connection_alias_format_witness :
    PostgresDbConnector.init "decoded" "thachbui" (some "dev") true none =
      Except.ok { db_environment := "dev",
                  connection_alias := "service=decoded:dev user=thachbui",
                  auto_commit := true } ∧
    ({ db_environment := "dev",
       connection_alias := "service=decoded:dev user=thachbui",
       auto_commit := true } : PostgresDbConnector).connection_alias =
      "service=" ++ "decoded" ++ ":" ++ "dev" ++ " user=" ++ "thachbui" :=
  ⟨by rfl, connection_alias_format "decoded" "thachbui" (some "dev") none true _ (by rfl)⟩

/-- C8: constructing with `env = none` fails with `MissingEnvironmentError`
exactly when the ENV environment variable is absent; when ENV is present its
value becomes the environment. -/
theorem missing_environment_resolution (db_name user_name : String) (auto_commit : Bool) :
    PostgresDbConnector.init db_name user_name none auto_commit none =
      Except.error (ConnectorError.missingEnvironmentError "No ENV environment variable found") ∧
    ∀ v : String, ∃ c : PostgresDbConnector,
      PostgresDbConnector.init db_name user_name none auto_commit (some v) = Except.ok c ∧
      c.db_environment = v := by
  refine ⟨rfl, fun v => ?_⟩
  exact ⟨_, rfl, rfl⟩

/-- C9: `connect` returns a connection whose autocommit flag equals the stored
`auto_commit`, whatever autocommit default the driver opened the connection
with; the connection is opened on the stored alias. -/
theorem connect_sets_autocommit (c : PostgresDbConnector) (driver_default_autocommit : Bool) :
    (c.connect driver_default_autocommit).autocommit = c.auto_commit ∧
    (c.connect driver_default_autocommit).dsn = c.connection_alias :=
  ⟨rfl, rfl⟩

/-- C10: with an explicit environment, construction succeeds and the result —
in particular `db_environment` and `connection_alias` — does not depend on the
process environment state. -/
theorem explicit_env_noninterference (db_name user_name e : String) (auto_commit : Bool)
    (env_var₁ env_var₂ : Option String) :
    PostgresDbConnector.init db_name user_name (some e) auto_commit env_var₁ =
      PostgresDbConnector.init db_name user_name (some e) auto_commit env_var₂ ∧
    ∃ c : PostgresDbConnector,
      PostgresDbConnector.init db_name user_name (some e) auto_commit env_var₁ = Except.ok c ∧
      c.db_environment = e ∧
      c.connection_alias = mkAlias db_name user_name e :=
  ⟨rfl, ⟨_, rfl, rfl, rfl⟩⟩

end PgService
